import Mathlib

/-!
Verification of the simcccc serial chat client (src/simcccc.py).

The embedding below models the single script as:
* pure data types for the packet dictionaries handed to the receive
  callback (optional keys become `Option` fields);
* `onReceive`, a direct translation of the callback (lines 24-56),
  returning the list of strings written to stdout, one entry per
  `print` call (a `print s` call writes `s ++ "\n"`; the prompt print
  uses `end=""` so it writes the prompt string alone);
* an event-trace semantics for `main` (lines 59-135): every external
  call (print, opening the serial interface, sleeping, channel
  configuration calls, sendText, close) becomes one event, and the
  process exit status is recorded alongside the trace.  The
  environment `Env` fixes the command line, whether the
  `SerialInterface` constructor raises, at which provisioning call an
  exception is raised (if any), and the successive lines returned by
  `input()`; exhaustion of that list models the user pressing Ctrl+C
  (a `KeyboardInterrupt` at the blocking input call);
* a state-level model `configureChannels` of the effect of the
  provisioning block (lines 106-112) on the channel list of the local node,
  used for the read-back round-trip claim;
* an RFC 4648 base64 decoder modelling the external decoding applied
  to the preshared-key constant.
-/

namespace Simcccc

/-- Line 20: the custom channel name constant. -/
def CUSTOM_CHANNEL_NAME : String := "DC540"

/-- Line 21: the custom channel preshared-key constant (base64 text). -/
def CUSTOM_CHANNEL_PSK : String := "OVRpanBCYjZ2WmVIZTRheVlSZDZZWGxUcElFNFRSaWo="

/-- The prompt string used both by the receive callback (line 56) and by
the interactive input call (line 126). -/
def promptStr : String := "Ch1> "

/-- The optional "decoded" sub-dictionary of a packet: it may or may not
carry a "text" entry. -/
structure Decoded where
  text : Option String
deriving DecidableEq, Repr

/-- A received packet dictionary: the "decoded" and "fromId" keys may each
be absent. -/
structure Packet where
  decoded : Option Decoded
  fromId : Option String
deriving DecidableEq, Repr

/-- Lines 24-56: the receive callback.  `packet = none` models the `None`
default (the `if not packet: return` guard; an empty dictionary takes the
same early return in Python and likewise produces no output, since it has
no decoded text).  `packet.get ("decoded", \x7b\x7d)` becomes `getD` with an
empty `Decoded`; `packet.get ("fromId", "unknown")` becomes `getD
"unknown"`.  The result is the list of strings written to stdout:
`print (f"\n\x7bsender\x7d: \x7bmessage\x7d")` writes a leading newline (ending the
pending prompt line), the message line, and a terminating newline; the
prompt re-emission uses `end=""`.  The `interface` argument is accepted
only to satisfy the publisher and is never used. -/
def onReceive {α : Type} (packet : Option Packet) (interface : Option α) : List String :=
  match packet with
  | none => []
  | some p =>
    let decoded := p.decoded.getD (Decoded.mk none)
    match decoded.text with
    | none => []
    | some message =>
      let sender := p.fromId.getD "unknown"
      ["\n" ++ sender ++ ": " ++ message ++ "\n", promptStr]

/-- One observable external action of `main`.  `print s` carries the exact
string written to stdout by that call. -/
inductive Ev where
  | print (s : String)
  | openConn (port : String)
  | sleepMs (ms : Nat)
  | getChannel (idx : Nat)
  | setName (s : String)
  | setPsk (s : String)
  | setUsePreset (b : Bool)
  | writeChannel (idx : Nat)
  | writeConfig
  | sendText (msg : String) (channelIndex : Nat)
  | close
deriving DecidableEq, Repr

/-- The environment a run of `main` is executed in: the full `sys.argv`
(element 0 is the script name), whether the `SerialInterface` constructor
raises (line 95), the index of the provisioning call that raises an
exception if any (lines 106-112, counting the six device calls in program
order), and the successive lines returned by `input()`; when the list is
exhausted the next blocking `input()` call is interrupted by Ctrl+C. -/
structure Env where
  argv : List String
  openFails : Bool
  configFailAt : Option Nat
  inputs : List String
deriving Repr

/-- A completed process run: the trace of external actions and the process
exit status (`sys.exit` at lines 89, 101 and 135). -/
structure Run where
  trace : List Ev
  exitCode : Nat
deriving DecidableEq, Repr

/-- Lines 106-112: the six device calls of the provisioning block, in
program order: `node.channels[1]`, the three attribute assignments, then
`node.writeChannel(1)` and `iface.writeConfig()`. -/
def configCalls : List Ev :=
  [Ev.getChannel 1,
   Ev.setName CUSTOM_CHANNEL_NAME,
   Ev.setPsk CUSTOM_CHANNEL_PSK,
   Ev.setUsePreset false,
   Ev.writeChannel 1,
   Ev.writeConfig]

/-- Lines 104-115: the `try`/`except` provisioning block.  On the success
path all six calls happen followed by the confirmation print (line 113);
if the call at index `k` raises, the calls before it have happened and the
`except` clause prints the error message (line 115).  Either way execution
falls through to the interactive loop. -/
def configTrace (failAt : Option Nat) : List Ev :=
  Ev.print "Setting custom Channel 1 config (DC540 + custom PSK)...\n" ::
    match failAt with
    | none => configCalls ++ [Ev.print "Channel 1 set to DC540 with custom PSK.\n\n"]
    | some k => configCalls.take k ++ [Ev.print "Error configuring Channel 1: <exception>\n"]

/-- Lines 117-120: the startup banner printed before the loop. -/
def bannerTrace : List Ev :=
  [Ev.print "Serial Interactive Meshtastic Custom Channel Chat Client 0.1.0\n",
   Ev.print "--------------------------------------------------------------\n",
   Ev.print "Type your message and press Enter to send.\n",
   Ev.print "Press Ctrl+C to exit...\n\n"]

/-- Lines 124-130: the interactive send loop.  Each iteration the
`input(promptStr)` call writes the prompt and yields one line; `if msg:`
skips empty lines, otherwise `sendText(msg, channelIndex=1)` runs followed
by the 0.1 s pacing sleep.  The loop only ends when an interrupt arrives
at the blocking input call (modelled by exhausting `inputs`). -/
def sendLoop : List String → List Ev
  | [] => []
  | msg :: rest =>
      Ev.print promptStr ::
        (if msg = "" then sendLoop rest
         else Ev.sendText msg 1 :: Ev.sleepMs 100 :: sendLoop rest)

/-- Lines 87-135: the whole of `main` as a trace semantics.

* Lines 87-89: fewer than two argv entries prints the usage line and
  exits with status 1.
* Lines 91-101: the port is `sys.argv[1].strip()`; the connection attempt
  is made; if the constructor raises, the `except` clause prints the error
  and `sys.exit(1)` runs — note there is no `finally` here, so no
  `close()` happens on this path.
* Lines 104-115: provisioning (see `configTrace`).
* Lines 117-130: banner then the send loop.
* Lines 131-135: the interrupt arrives at a blocking `input()` call (which
  has already re-printed the prompt), the handler prints the exit notice,
  and the `finally` block closes the interface and exits with status 0. -/
def main (env : Env) : Run :=
  if env.argv.length < 2 then
    Run.mk [Ev.print "Usage: python simcccc.py <SERIAL_PORT>\n"] 1
  else
    let port := ((env.argv.get? 1).getD "").trim
    if env.openFails then
      Run.mk
        [Ev.print ("Attempting to connect to Meshtastic device at serial port: " ++ port ++ "\n"),
         Ev.openConn port,
         Ev.print "Error initializing SerialInterface: <exception>\n"]
        1
    else
      Run.mk
        (Ev.print ("Attempting to connect to Meshtastic device at serial port: " ++ port ++ "\n") ::
         Ev.openConn port ::
         Ev.print "Connected to Meshtastic device over serial!\n" ::
         Ev.sleepMs 2000 ::
         (configTrace env.configFailAt ++
          bannerTrace ++
          sendLoop env.inputs ++
          [Ev.print promptStr, Ev.print "\nExiting...\n", Ev.close]))
        0

/-- Recogniser for the `close` event. -/
def isClose : Ev → Bool
  | Ev.close => true
  | _ => false

/-- Recogniser for the connection-attempt event. -/
def isOpenConn : Ev → Bool
  | Ev.openConn _ => true
  | _ => false

/-- Number of `close()` calls in a trace. -/
def countClose (t : List Ev) : Nat := t.countP isClose

/-- The messages transmitted in a trace, with their channel index, in
order. -/
def sentMsgs (t : List Ev) : List (String × Nat) :=
  t.filterMap fun e =>
    match e with
    | Ev.sendText m i => some (m, i)
    | _ => none

/-- Number of prompt re-emissions (writes of exactly the prompt string)
in a trace. -/
def countPrompts (t : List Ev) : Nat :=
  t.countP fun e => decide (e = Ev.print promptStr)

/-- Recogniser for the six device calls of the provisioning block. -/
def isConfigCall : Ev → Bool
  | Ev.getChannel _ => true
  | Ev.setName _ => true
  | Ev.setPsk _ => true
  | Ev.setUsePreset _ => true
  | Ev.writeChannel _ => true
  | Ev.writeConfig => true
  | _ => false

/-- The subtrace of provisioning device calls. -/
def configOps (t : List Ev) : List Ev := t.filter isConfigCall

/-- One channel slot of the local node, with the three attributes the
script assigns (lines 108-110). -/
structure Channel where
  name : String
  psk : String
  usePreset : Bool
deriving DecidableEq, Repr

/-- The local node, holding its channel slots. -/
structure Node where
  channels : List Channel
deriving DecidableEq, Repr

/-- Lines 106-112 as a transformer on the local node state (success
path): fetch slot 1, overwrite its name, psk and usePreset attributes,
and persist.  If slot 1 does not exist the lookup raises and the caught
exception leaves the node unchanged. -/
def configureChannels (node : Node) : Node :=
  match node.channels.get? 1 with
  | none => node
  | some _ =>
      Node.mk (node.channels.set 1
        (Channel.mk CUSTOM_CHANNEL_NAME CUSTOM_CHANNEL_PSK false))

/-- Value of one base64 alphabet character (RFC 4648), `none` for a
non-alphabet character. -/
def b64Val (c : Char) : Option Nat :=
  let n := c.toNat
  if 65 ≤ n ∧ n ≤ 90 then some (n - 65)
  else if 97 ≤ n ∧ n ≤ 122 then some (n - 97 + 26)
  else if 48 ≤ n ∧ n ≤ 57 then some (n - 48 + 52)
  else if n = 43 then some 62
  else if n = 47 then some 63
  else none

/-- Decode one 4-character base64 quantum into 1, 2 or 3 bytes depending
on padding. -/
def b64Quantum : Char → Char → Char → Char → Option (List Nat)
  | a, b, '=', '=' => do
      let x ← b64Val a
      let y ← b64Val b
      some [x * 4 + y / 16]
  | a, b, c, '=' => do
      let x ← b64Val a
      let y ← b64Val b
      let z ← b64Val c
      some [x * 4 + y / 16, (y % 16) * 16 + z / 4]
  | a, b, c, d => do
      let x ← b64Val a
      let y ← b64Val b
      let z ← b64Val c
      let w ← b64Val d
      some [x * 4 + y / 16, (y % 16) * 16 + z / 4, (z % 4) * 64 + w]

/-- Decode a base64 character sequence, 4 characters at a time; padding is
only legal in the final quantum. -/
def b64DecodeChars : List Char → Option (List Nat)
  | [] => some []
  | a :: b :: c :: d :: rest => do
      let g ← b64Quantum a b c d
      if rest = [] then
        some g
      else if g.length = 3 then do
        let r ← b64DecodeChars rest
        some (g ++ r)
      else none
  | _ => none

/-- Decode a base64 string to its byte values. -/
def b64Decode (s : String) : Option (List Nat) := b64DecodeChars s.data

/-- The send loop never calls close: its events are prompts, sends and
pacing sleeps. -/
theorem sendLoop_no_close (inputs : List String) :
    (sendLoop inputs).countP isClose = 0 := by
  induction inputs with
  | nil => rfl
  | cons m rest ih =>
      by_cases h : m = "" <;>
        simp [sendLoop, h, List.countP_cons, isClose, ih]

/-- The provisioning block never calls close, on the success path or after
an injected exception. -/
theorem configTrace_no_close (f : Option Nat) :
    (configTrace f).countP isClose = 0 := by
  cases f with
  | none => simp [configTrace, configCalls, List.countP_cons, List.countP_append, isClose]
  | some k =>
      simp [configTrace, List.countP_cons, List.countP_append, isClose]
      intro a ha
      have hm : a ∈ configCalls := List.take_subset _ _ ha
      simp [configCalls] at hm
      rcases hm with rfl | rfl | rfl | rfl | rfl | rfl <;> rfl

/-- The send loop performs none of the six provisioning device calls. -/
theorem sendLoop_no_configOps (inputs : List String) :
    (sendLoop inputs).filter isConfigCall = [] := by
  induction inputs with
  | nil => rfl
  | cons m rest ih =>
      by_cases h : m = "" <;>
        simp [sendLoop, h, List.filter_cons, isConfigCall, ih]

/-- C1 counterexample: in the run where the serial-interface constructor
raises after the connection attempt (lines 94-101), the process exits
with status 1 and the trace contains a connection attempt but zero
close() calls — refuting "close() is invoked exactly once ... caused by a
fatal open failure after a partial connection". -/
theorem c1_fatal_open_no_close :
    countClose (main (Env.mk ["simcccc.py", "/dev/ttyUSB0"] true none [])).trace = 0 ∧
    (main (Env.mk ["simcccc.py", "/dev/ttyUSB0"] true none [])).trace.countP isOpenConn = 1 ∧
    (main (Env.mk ["simcccc.py", "/dev/ttyUSB0"] true none [])).exitCode = 1 := by
  refine ⟨?_, ?_, ?_⟩ <;>
    simp [main, countClose, List.countP_cons, isClose, isOpenConn]

/-- C1 (amended): whenever the command line provides a port and the
connection opens successfully, close() is invoked exactly once before the
process exits, whether provisioning fails or not and whatever the user
types before the interrupt; on a missing-argument or fatal open-failure
exit no close() occurs. -/
theorem c1_close_once_on_loop_exit (env : Env)
    (hargs : 2 ≤ env.argv.length) (hopen : env.openFails = false) :
    countClose (main env).trace = 1 := by
  have hlt : ¬ env.argv.length < 2 := by omega
  simp [main, hlt, hopen, countClose, bannerTrace,
        List.countP_cons, List.countP_append, isClose,
        sendLoop_no_close, configTrace_no_close]

/-- C1 witness at a concrete run. -/
theorem c1_close_once_witness :
    countClose (main (Env.mk ["simcccc.py", "COM3"] false none ["hello", ""])).trace = 1 :=
  c1_close_once_on_loop_exit (Env.mk ["simcccc.py", "COM3"] false none ["hello", ""])
    (by decide) rfl

/-- C2: for every inbound event whose packet carries a decoded text
field, the receive callback writes the line made of the sender and the
text (the first print starts with one newline, ending the pending prompt
line, and ends with the newline print appends) and then re-emits the
prompt string; the sender is the fromId of the packet when present and
"unknown" otherwise, which is exactly what getD computes. -/
theorem c2_text_output {α : Type} (p : Packet) (d : Decoded) (t : String) (i : Option α)
    (h1 : p.decoded = some d) (h2 : d.text = some t) :
    onReceive (some p) i =
      ["\n" ++ p.fromId.getD "unknown" ++ ": " ++ t ++ "\n", promptStr] := by
  simp [onReceive, h1, h2]

/-- C2 witness at a concrete packet. -/
theorem c2_text_output_witness :
    onReceive (some (Packet.mk (some (Decoded.mk (some "hi"))) (some "!abcd1234")))
        (none : Option Unit) =
      ["\n!abcd1234: hi\n", "Ch1> "] :=
  (c2_text_output (Packet.mk (some (Decoded.mk (some "hi"))) (some "!abcd1234"))
      (Decoded.mk (some "hi")) "hi" (none : Option Unit) rfl rfl).trans (by decide)

/-- C3: when a provisioning call raises (at any step), the run logs the
configuration error, still reaches the interactive loop (the prompt is
printed), and the process ends with status 0 — no configuration failure
terminates the process. -/
theorem c3_config_error_nonfatal (env : Env) (k : Nat)
    (hargs : 2 ≤ env.argv.length) (hopen : env.openFails = false)
    (hfail : env.configFailAt = some k) :
    Ev.print "Error configuring Channel 1: <exception>\n" ∈ (main env).trace ∧
    Ev.print promptStr ∈ (main env).trace ∧
    (main env).exitCode = 0 := by
  have hlt : ¬ env.argv.length < 2 := by omega
  refine ⟨?_, ?_, by simp [main, hlt, hopen]⟩ <;>
    simp [main, hlt, hopen, hfail, configTrace, bannerTrace,
          List.mem_append, List.mem_cons]

/-- C3 witness: an exception at the third provisioning call. -/
theorem c3_config_error_nonfatal_witness :
    Ev.print "Error configuring Channel 1: <exception>\n"
        ∈ (main (Env.mk ["simcccc.py", "COM3"] false (some 2) [])).trace ∧
    Ev.print promptStr ∈ (main (Env.mk ["simcccc.py", "COM3"] false (some 2) [])).trace ∧
    (main (Env.mk ["simcccc.py", "COM3"] false (some 2) [])).exitCode = 0 :=
  c3_config_error_nonfatal (Env.mk ["simcccc.py", "COM3"] false (some 2) []) 2
    (by decide) rfl rfl

/-- C4: the exit status is 1 when the port argument is missing (and the
usage line is printed) or when opening the connection fails, and 0 when
the send loop is reached and later interrupted. -/
theorem c4_exit_codes (env : Env) :
    (main env).exitCode =
      (if env.argv.length < 2 then 1 else if env.openFails then 1 else 0) ∧
    (env.argv.length < 2 →
      Ev.print "Usage: python simcccc.py <SERIAL_PORT>\n" ∈ (main env).trace) := by
  constructor
  · by_cases h1 : env.argv.length < 2 <;> by_cases h2 : env.openFails <;>
      simp [main, h1, h2]
  · intro h
    simp [main, h]

/-- C4 witness: the missing-argument run exits 1 after the usage line. -/
theorem c4_exit_codes_witness :
    (main (Env.mk ["simcccc.py"] false none [])).exitCode = 1 ∧
    Ev.print "Usage: python simcccc.py <SERIAL_PORT>\n"
      ∈ (main (Env.mk ["simcccc.py"] false none [])).trace :=
  ⟨by simpa using (c4_exit_codes (Env.mk ["simcccc.py"] false none [])).1,
   (c4_exit_codes (Env.mk ["simcccc.py"] false none [])).2 (by decide)⟩

/-- C5: the messages the send loop transmits are exactly the non-empty
input lines, in order, each on channel index 1 — an empty line causes no
send — and every input line, empty ones included, gets its own prompt, so
the loop continues to the next iteration after an empty line. -/
theorem c5_empty_input_no_send (inputs : List String) :
    sentMsgs (sendLoop inputs) =
      (inputs.filter fun m => m ≠ "").map (fun m => (m, 1)) ∧
    countPrompts (sendLoop inputs) = inputs.length := by
  induction inputs with
  | nil => exact ⟨rfl, rfl⟩
  | cons m rest ih =>
      obtain ⟨ih1, ih2⟩ := ih
      simp only [sentMsgs, countPrompts, ne_eq, decide_not] at ih1 ih2 ⊢
      by_cases h : m = ""
      · subst h
        simp [sendLoop, List.filterMap_cons, List.filter_cons,
              List.countP_cons, ih1, ih2]
      · simp [sendLoop, h, List.filterMap_cons, List.filter_cons,
              List.countP_cons, ih1, ih2]

/-- C6: the receive callback produces no output on a missing packet and
on any packet whose decoded payload carries no text field. -/
theorem c6_silent_ignore {α : Type} (i : Option α) (p : Packet)
    (h : ∀ d, p.decoded = some d → d.text = none) :
    onReceive (none : Option Packet) i = [] ∧ onReceive (some p) i = [] := by
  refine ⟨rfl, ?_⟩
  cases hd : p.decoded with
  | none => simp [onReceive, hd]
  | some d => simp [onReceive, hd, h d hd]

/-- C6 witness: no packet, and a packet with a textless decoded payload. -/
theorem c6_silent_ignore_witness :
    onReceive (none : Option Packet) (none : Option Unit) = [] ∧
    onReceive (some (Packet.mk (some (Decoded.mk none)) (some "!abcd1234")))
        (none : Option Unit) = [] :=
  c6_silent_ignore (none : Option Unit)
    (Packet.mk (some (Decoded.mk none)) (some "!abcd1234"))
    (by intro d hd; cases hd; rfl)

/-- C7: on the success path, the provisioning device calls of a run are
exactly: fetch channel slot 1, set the name, set the preshared key, set
the preset flag, persist channel 1, persist the node configuration — in
that order. -/
theorem c7_provision_order (env : Env)
    (hargs : 2 ≤ env.argv.length) (hopen : env.openFails = false)
    (hcfg : env.configFailAt = none) :
    configOps (main env).trace =
      [Ev.getChannel 1, Ev.setName "DC540",
       Ev.setPsk "OVRpanBCYjZ2WmVIZTRheVlSZDZZWGxUcElFNFRSaWo=",
       Ev.setUsePreset false, Ev.writeChannel 1, Ev.writeConfig] := by
  have hlt : ¬ env.argv.length < 2 := by omega
  simp [main, hlt, hopen, hcfg, configOps, configTrace, configCalls, bannerTrace,
        CUSTOM_CHANNEL_NAME, CUSTOM_CHANNEL_PSK,
        List.filter_append, List.filter_cons, isConfigCall, sendLoop_no_configOps]

/-- C7 witness at a concrete run. -/
theorem c7_provision_order_witness :
    configOps (main (Env.mk ["simcccc.py", "COM3"] false none ["hello"])).trace =
      [Ev.getChannel 1, Ev.setName "DC540",
       Ev.setPsk "OVRpanBCYjZ2WmVIZTRheVlSZDZZWGxUcElFNFRSaWo=",
       Ev.setUsePreset false, Ev.writeChannel 1, Ev.writeConfig] :=
  c7_provision_order (Env.mk ["simcccc.py", "COM3"] false none ["hello"])
    (by decide) rfl rfl

/-- C8: the preshared-key constant is valid base64 and decodes to exactly
32 bytes (a 256-bit key), and provisioning issues the call that sets the
usePreset flag of the channel to false alongside the custom key. -/
theorem c8_psk_length_and_usepreset :
    (b64Decode CUSTOM_CHANNEL_PSK).map List.length = some 32 ∧
    Ev.setUsePreset false ∈ configTrace none := by
  decide

/-- C9: for any local node on which channel slot 1 exists, provisioning
followed by reading back slot 1 yields the configured name, the same key
and usePreset = false. -/
theorem c9_roundtrip (node : Node) (ch : Channel)
    (h : node.channels.get? 1 = some ch) :
    (configureChannels node).channels.get? 1 =
      some (Channel.mk "DC540" "OVRpanBCYjZ2WmVIZTRheVlSZDZZWGxUcElFNFRSaWo=" false) := by
  obtain ⟨chs⟩ := node
  cases chs with
  | nil => simp at h
  | cons a tl =>
      cases tl with
      | nil => simp at h
      | cons b rest =>
          simp [configureChannels, CUSTOM_CHANNEL_NAME, CUSTOM_CHANNEL_PSK]

/-- C9 witness: a node with two default slots. -/
theorem c9_roundtrip_witness :
    (configureChannels (Node.mk
        [Channel.mk "ch0" "" true, Channel.mk "old" "oldpsk" true])).channels.get? 1 =
      some (Channel.mk "DC540" "OVRpanBCYjZ2WmVIZTRheVlSZDZZWGxUcElFNFRSaWo=" false) :=
  c9_roundtrip (Node.mk [Channel.mk "ch0" "" true, Channel.mk "old" "oldpsk" true])
    (Channel.mk "old" "oldpsk" true) rfl

/-- C10: the result of the receive callback is independent of the interface
argument — for any packet and any two interface values, even of different
types, the output is identical; the callback touches no connection state
(its embedding neither receives nor returns any). -/
theorem c10_interface_independence {α β : Type} (packet : Option Packet)
    (i1 : Option α) (i2 : Option β) :
    onReceive packet i1 = onReceive packet i2 := rfl

end Simcccc
